import Mathlib

/-!
Verification of the translation-gateway server (Rust sources: `main.rs`,
`translation.rs`, `wasm_engine.rs`) against its natural-language
specification.  The Rust code is shallowly embedded: pure fragments become
Lean functions, stateful fragments pass explicit state, fallible fragments
return `Except`/`Option`, and Rust string/byte slicing is made explicitly
partial (returns `none` exactly where Rust would panic).
-/

set_option maxRecDepth 4096
set_option linter.unusedVariables false

namespace Server

/-! ### Rust byte-string model (for panicking slice operations)

Rust `&str` values are modelled as their UTF-8 byte lists.  `&s[a..b]`
panics unless `a <= b`, both indices are char boundaries, and `b <= len`;
`byteSlice` returns `none` exactly in the panicking cases
(`str::is_char_boundary`: true at 0 and at `len`, false past `len`, and
otherwise true iff the byte at `i` is not a UTF-8 continuation byte). -/

def isCharBoundary (s : List UInt8) (i : Nat) : Bool :=
  if i = 0 then true
  else if i = s.length then true
  else if s.length < i then false
  else match s.get? i with
    | some b => !(b &&& 0xC0 == 0x80)
    | none => false

def byteSlice (s : List UInt8) (a b : Nat) : Option (List UInt8) :=
  if a ≤ b ∧ isCharBoundary s a ∧ isCharBoundary s b then
    some ((s.drop a).take (b - a))
  else
    none

/-! ### `Translator::load_model` slicing prefix (translation.rs lines 57-59)

The first two statements of `Translator::load_model` are
`let from_code = &language_pair[0..2]; let to_code = &language_pair[2..4];`
with no length or boundary check; `loadModelSlices` is `none` exactly when
that code panics. -/

def loadModelSlices (languagePair : List UInt8) :
    Option (List UInt8 × List UInt8) := do
  let fromCode ← byteSlice languagePair 0 2
  let toCode ← byteSlice languagePair 2 4
  pure (fromCode, toCode)

/-- Outcome of one directory entry of `load_models_manually` (main.rs
lines 114-134): the call `translator.load_model(&language_pair, ..)` runs
first (and can panic in the slicing above), and only afterwards does the
`language_pair.len() >= 4` check run, whose failing branch returns
`AppError::ConfigError`. -/
inductive StepOutcome
  | panicked
  | configError
  | proceeded (fromCode toCode : List UInt8)
  deriving Repr, DecidableEq

def loadModelsManuallyStep (languagePair : List UInt8) : StepOutcome :=
  match loadModelSlices languagePair with
  | none => .panicked
  | some (f, t) =>
    if 4 ≤ languagePair.length then .proceeded f t
    else .configError

/-! ### The script-side adapter `engine.translate` (wasm_engine.rs ADAPTER_JS)

`translate: function(text, from, to)` looks up `this.models[from + "-" + to]`
and throws `"Model not found for " + key` when absent; otherwise it calls
the blocking service and returns the first response's text.  The registered
model table is the list of registered keys; the service itself is opaque and
passed as an oracle. -/

def adapterTranslate (models : List String)
    (service : String → String → String → String)
    (text fromLang toLang : String) : Except String String :=
  let key := fromLang ++ "-" ++ toLang
  if models.contains key then
    .ok (service text fromLang toLang)
  else
    .error ("Model not found for " ++ key)

/-! ### UTF-8 encoding of Rust strings -/

def charUtf8 (c : Char) : List UInt8 :=
  let n := c.toNat
  if n < 0x80 then [UInt8.ofNat n]
  else if n < 0x800 then
    [UInt8.ofNat (0xC0 ||| (n >>> 6)), UInt8.ofNat (0x80 ||| (n &&& 0x3F))]
  else if n < 0x10000 then
    [UInt8.ofNat (0xE0 ||| (n >>> 12)), UInt8.ofNat (0x80 ||| ((n >>> 6) &&& 0x3F)),
     UInt8.ofNat (0x80 ||| (n &&& 0x3F))]
  else
    [UInt8.ofNat (0xF0 ||| (n >>> 18)), UInt8.ofNat (0x80 ||| ((n >>> 12) &&& 0x3F)),
     UInt8.ofNat (0x80 ||| ((n >>> 6) &&& 0x3F)), UInt8.ofNat (0x80 ||| (n &&& 0x3F))]

def strBytes (s : String) : List UInt8 := s.data.flatMap charUtf8

/-! ### The error enum of main.rs (`AppError`)

Exactly the four variants declared in main.rs lines 34-47; in particular
there is no `NoWorkers` variant anywhere in the program. -/

inductive AppError
  | translationError (msg : String)
  | ioError (msg : String)
  | unauthorized
  | configError (msg : String)
  deriving Repr, DecidableEq

/-! ### `Translator` (translation.rs)

State: `worker_url` (a single fixed URL built from the worker port),
`loaded_models` (the per-pair load cache; keys only, values are always
`true`), and `next_worker` (an `AtomicUsize` initialised to 0).  The
`num_workers` argument of `Translator::new` is accepted and ignored by the
body, exactly as in the source.  HTTP exchanges are modelled by a `respond`
oracle mapping the issued request to the worker's response. -/

structure TranslatorState where
  workerUrl : String
  loadedModels : List String
  nextWorker : Nat
  deriving Repr, DecidableEq

def translatorNew (numWorkers : Nat) (workerPort : Nat) : TranslatorState :=
  { workerUrl := "http://127.0.0.1:" ++ toString workerPort
    loadedModels := []
    nextWorker := 0 }

structure HttpRequest where
  url : String
  deriving Repr, DecidableEq

/-- A worker response: `success body` is a 2xx status whose JSON `text`
field is `body` (`none` when absent/not a string); `failure` is any
non-success status with its error text. -/
inductive HttpResponse
  | success (body : Option String)
  | failure (errText : String)
  deriving Repr, DecidableEq

structure TranslateResult where
  state : TranslatorState
  request : HttpRequest
  result : Except AppError String
  deriving Repr

/-- `Translator::translate` (translation.rs lines 97-123): builds the URL
`worker_url + "/translate"`, posts unconditionally, maps a non-success
status to `AppError::TranslationError("Translation failed: " ++ e)` and a
success to the response's `text` field.  It touches neither
`loaded_models` nor `next_worker`. -/
def translatorTranslate (st : TranslatorState)
    (respond : HttpRequest → HttpResponse)
    (fromCode toCode text : String) : TranslateResult :=
  let req : HttpRequest := { url := st.workerUrl ++ "/translate" }
  let result : Except AppError String :=
    match respond req with
    | .failure e => .error (.translationError ("Translation failed: " ++ e))
    | .success (some s) => .ok s
    | .success none => .error (.translationError "Invalid response format")
  { state := st, request := req, result := result }

structure LoadResult where
  state : TranslatorState
  requestSent : Bool
  succeeded : Bool
  deriving Repr, DecidableEq

/-- `Translator::load_model` (translation.rs lines 57-91): slices the pair
string first (panic modelled as `none`), then returns early on a cache hit
without any request; otherwise posts to `worker_url + "/load-model"` and
inserts the pair into the cache on success. -/
def translatorLoadModel (st : TranslatorState)
    (respond : HttpRequest → HttpResponse)
    (languagePair : String) : Option LoadResult :=
  match loadModelSlices (strBytes languagePair) with
  | none => none
  | some _ =>
    if st.loadedModels.contains languagePair then
      some { state := st, requestSent := false, succeeded := true }
    else
      let req : HttpRequest := { url := st.workerUrl ++ "/load-model" }
      match respond req with
      | .failure _ => some { state := st, requestSent := true, succeeded := false }
      | .success _ =>
        some { state := { st with loadedModels := languagePair :: st.loadedModels }
               requestSent := true
               succeeded := true }

/-! ### `WasmEngine::load_model` (wasm_engine.rs lines 256-299)

The directory scan reads (`fs::read`) every entry unconditionally, then
classifies each file name: `model*…*.bin` is the lexical table when the
name contains `"s2t"` and the primary weights otherwise; `srcvocab*` and
`trgvocab*` are the vocabularies.  If fewer than four distinct roles are
found it bails with an error carrying the directory and the FOUND role
keys.  Otherwise it invokes the script-side `engine.loadModel`, which
registers the model under `from + "-" + to`.  There is no already-loaded
check anywhere in this function. -/

inductive Role
  | model | lex | srcvocab | trgvocab
  deriving Repr, DecidableEq

def listStartsWith : List Char → List Char → Bool
  | _, [] => true
  | [], _ :: _ => false
  | a :: as, b :: bs => a == b && listStartsWith as bs

def listHasSub : List Char → List Char → Bool
  | [], pat => listStartsWith [] pat
  | a :: as, pat => listStartsWith (a :: as) pat || listHasSub as pat

def strContainsSub (s pat : String) : Bool := listHasSub s.data pat.data

/-- Rust `str::starts_with` / `str::ends_with` with a string pattern. -/
def strStartsWith (s pat : String) : Bool := listStartsWith s.data pat.data

def strEndsWith (s pat : String) : Bool :=
  listStartsWith s.data.reverse pat.data.reverse

def classifyName (name : String) : Option Role :=
  if strStartsWith name "model" && strEndsWith name ".bin" then
    if strContainsSub name "s2t" then some .lex else some .model
  else if strStartsWith name "srcvocab" then some .srcvocab
  else if strStartsWith name "trgvocab" then some .trgvocab
  else none

/-- `HashMap::insert` on the role map: overwrites any previous binding. -/
def insertRole (m : List (Role × Nat)) (r : Role) (v : Nat) : List (Role × Nat) :=
  (r, v) :: m.filter (fun p => p.1 ≠ r)

def classifyFiles (entries : List (String × Nat)) : List (Role × Nat) :=
  entries.foldl
    (fun m e =>
      match classifyName e.1 with
      | some r => insertRole m r e.2
      | none => m)
    []

structure MissingFilesError where
  dir : String
  found : List Role
  deriving Repr, DecidableEq

structure WasmEngineState where
  models : List String
  deriving Repr, DecidableEq

def insertKey (key : String) (ks : List String) : List String :=
  if ks.contains key then ks else key :: ks

structure WasmLoadResult where
  state : WasmEngineState
  filesRead : Nat
  registrationInvoked : Bool
  outcome : Except MissingFilesError Unit
  deriving Repr

def wasmLoadModel (st : WasmEngineState) (fromCode toCode : String)
    (dir : String) (entries : List (String × Nat)) : WasmLoadResult :=
  let files := classifyFiles entries
  if files.length < 4 then
    { state := st
      filesRead := entries.length
      registrationInvoked := false
      outcome := .error { dir := dir, found := files.map Prod.fst } }
  else
    { state := { models := insertKey (fromCode ++ "-" ++ toCode) st.models }
      filesRead := entries.length
      registrationInvoked := true
      outcome := .ok () }

/-! ### The `WebAssembly.instantiate` polyfill (wasm_engine.rs lines 129-193)

A compiled module is abstracted to its import and export declarations;
byte decoding (`wasmtime::Module::new`) is the native engine's job, so the
polyfill is modelled on the decoder's result (`none` = malformed bytes).
The closure body is followed literally: on decode failure it throws a
script-level compile error; then for every FUNCTION import it calls
`linker.func_wrap(module, name, || {})` — binding a stub whose wasm type
is the EMPTY signature, whatever the import declares — and `.unwrap()`s
the result (a duplicate key makes `func_wrap` return `Err`, so the
`unwrap` aborts the host); non-function imports are skipped.  Then
`linker.instantiate` performs wasmtime linking, which succeeds only if
every import resolves to a definition of its exact declared type; a
failure is thrown as a distinct script-level instantiation error.  On
success every export name is set to the placeholder value `0` on the
returned exports object. -/

inductive WValType
  | i32 | i64 | f32 | f64
  deriving Repr, DecidableEq

structure WFuncType where
  params : List WValType
  results : List WValType
  deriving Repr, DecidableEq

inductive WExternType
  | func (ty : WFuncType)
  | memory
  | table
  | global
  deriving Repr, DecidableEq

structure WImport where
  moduleName : String
  name : String
  ty : WExternType
  deriving Repr, DecidableEq

structure WModule where
  imports : List WImport
  exports : List String
  deriving Repr, DecidableEq

def importKey (i : WImport) : String × String := (i.moduleName, i.name)

/-- The wasm type of the `|| {}` closure passed to every `func_wrap`. -/
def stubFuncType : WFuncType := { params := [], results := [] }

/-- The import-stubbing loop; `none` models the host panic from
`.unwrap()` when `func_wrap` hits an already-defined key. -/
def stubLoop :
    List WImport → List ((String × String) × WFuncType) →
      Option (List ((String × String) × WFuncType))
  | [], linker => some linker
  | imp :: rest, linker =>
    match imp.ty with
    | .func _ =>
      if importKey imp ∈ linker.map Prod.fst then none
      else stubLoop rest (linker ++ [(importKey imp, stubFuncType)])
    | _ => stubLoop rest linker

def lookupKey :
    List ((String × String) × WFuncType) → (String × String) → Option WFuncType
  | [], _ => none
  | (k, v) :: rest, key => if k = key then some v else lookupKey rest key

/-- wasmtime's link check: every import must resolve in the linker to a
definition of its exact declared type; the loop defined only functions, so
memory/table/global imports never resolve. -/
def linkCheck (linker : List ((String × String) × WFuncType)) :
    List WImport → Bool
  | [] => true
  | imp :: rest =>
    (match imp.ty with
     | .func t =>
       match lookupKey linker (importKey imp) with
       | some ft => if ft = t then true else false
       | none => false
     | _ => false) && linkCheck linker rest

inductive InstOutcome
  | ok (exports : List (String × Nat))
  | compileError
  | instantiationError
  | hostPanic
  deriving Repr, DecidableEq

def instOk : InstOutcome → Bool
  | .ok _ => true
  | _ => false

def instantiatePolyfill (decoded : Option WModule) : InstOutcome :=
  match decoded with
  | none => .compileError
  | some m =>
    match stubLoop m.imports [] with
    | none => .hostPanic
    | some linker =>
      if linkCheck linker m.imports then
        .ok (m.exports.map (fun n => (n, 0)))
      else
        .instantiationError

/-- A perfectly valid module shape: one WASI-style function import with a
non-empty signature (as the actual bergamot translator module has) and a
memory export. -/
def wasiModule : WModule :=
  { imports := [{ moduleName := "wasi_snapshot_preview1"
                  name := "fd_write"
                  ty := .func { params := [.i32, .i32, .i32, .i32]
                                results := [.i32] } }]
    exports := ["memory"] }

/-! ### Language codes (translation.rs lines 127-205)

`isolang::Language` is modelled by its two code columns: the optional ISO
639-1 two-letter code and the ISO 639-3 three-letter code.  `languageTable`
embeds the rows of the external crate's table relevant to a translation
gateway; every 639-1 code in the real table is exactly two lowercase
letters, which the embedded rows preserve.  `whichlang` text detection
composed with `Language::from_639_3` is an oracle (`detect`). -/

structure Language where
  code1 : Option String
  code3 : String
  deriving Repr, DecidableEq

def languageTable : List Language :=
  [ { code1 := some "en", code3 := "eng" },
    { code1 := some "zh", code3 := "zho" },
    { code1 := none,      code3 := "cmn" },
    { code1 := some "de", code3 := "deu" },
    { code1 := some "fr", code3 := "fra" },
    { code1 := some "es", code3 := "spa" },
    { code1 := some "ja", code3 := "jpn" },
    { code1 := some "ko", code3 := "kor" },
    { code1 := some "ru", code3 := "rus" },
    { code1 := some "pt", code3 := "por" },
    { code1 := some "it", code3 := "ita" },
    { code1 := some "nl", code3 := "nld" },
    { code1 := some "pl", code3 := "pol" },
    { code1 := some "ar", code3 := "ara" },
    { code1 := some "tr", code3 := "tur" },
    { code1 := some "cs", code3 := "ces" },
    { code1 := some "uk", code3 := "ukr" },
    { code1 := some "bg", code3 := "bul" },
    { code1 := some "el", code3 := "ell" },
    { code1 := some "fi", code3 := "fin" },
    { code1 := some "sv", code3 := "swe" },
    { code1 := some "da", code3 := "dan" },
    { code1 := some "hu", code3 := "hun" },
    { code1 := some "ro", code3 := "ron" },
    { code1 := some "id", code3 := "ind" },
    { code1 := some "vi", code3 := "vie" },
    { code1 := some "th", code3 := "tha" },
    { code1 := some "hi", code3 := "hin" } ]

/-- `isolang::Language::from_639_1`. -/
def fromIso6391 (code : String) : Option Language :=
  languageTable.find? (fun l => l.code1 == some code)

/-- Rust `code.split(char is dash).next().unwrap_or(code)`: the text up
to the first dash (`split` always yields at least one segment, so the
`unwrap_or` arm is inert). -/
def takeUntilDash : List Char → List Char
  | [] => []
  | c :: rest => if c = '-' then [] else c :: takeUntilDash rest

def firstSegment (code : String) : String := String.mk (takeUntilDash code.data)

/-- `parse_language_code` (translation.rs lines 127-134). -/
def parseLanguageCode (code : String) : Except AppError Language :=
  match fromIso6391 (firstSegment code) with
  | some l => .ok l
  | none =>
    .error (.translationError
      ("Invalid language code: " ++ code ++ ". Please use ISO 639-1 format."))

/-- `get_iso_code` (translation.rs lines 136-146): Mandarin (639-3 `cmn`)
is special-cased to `zh`; otherwise the 639-1 code, failing when absent. -/
def getIsoCode (lang : Language) : Except AppError String :=
  if lang.code3 = "cmn" then .ok "zh"
  else
    match lang.code1 with
    | some c => .ok c
    | none =>
      .error (.translationError "Language does not have an ISO 639-1 code")

/-- Source-language resolution of `perform_translation` (translation.rs
lines 167-182): `None`, `Some("")` and `Some("auto")` auto-resolve — to
the single loaded model's source when exactly one model is loaded, else by
detection — and any other code goes through `parse_language_code`. -/
def resolveSource (detect : String → Option Language)
    (models : List (Language × Language)) (text : String) :
    Option String → Except AppError Language
  | none => autoResolve
  | some "" => autoResolve
  | some "auto" => autoResolve
  | some code => parseLanguageCode code
where
  autoResolve : Except AppError Language :=
    if models.length = 1 then
      .ok ((models.head?.map Prod.fst).getD { code1 := some "en", code3 := "eng" })
    else
      match detect text with
      | some l => .ok l
      | none =>
        .error (.translationError
          ("Failed to detect language for text: " ++ text))

structure PerformResult where
  result : Except AppError (String × String × String)
  backendInvoked : Bool
  deriving Repr

/-- `perform_translation` (translation.rs lines 161-205), with the
worker call abstracted as `backend` and its error mapped through
`AppError::TranslationError` as in the source.  `backendInvoked` records
whether `state.translator.translate` was reached. -/
def performTranslation (detect : String → Option Language)
    (backend : String → String → String → Except String String)
    (models : List (Language × Language))
    (text : String) (fromLang : Option String) (toLang : String) :
    PerformResult :=
  match resolveSource detect models text fromLang with
  | .error e => { result := .error e, backendInvoked := false }
  | .ok sourceLang =>
    match parseLanguageCode toLang with
    | .error e => { result := .error e, backendInvoked := false }
    | .ok targetLang =>
      match getIsoCode sourceLang with
      | .error e => { result := .error e, backendInvoked := false }
      | .ok fromCode =>
        match getIsoCode targetLang with
        | .error e => { result := .error e, backendInvoked := false }
        | .ok toCode =>
          if fromCode = toCode then
            { result := .ok (text, fromCode, toCode), backendInvoked := false }
          else if (sourceLang, targetLang) ∈ models then
            match backend fromCode toCode text with
            | .ok translated =>
              { result := .ok (translated, fromCode, toCode)
                backendInvoked := true }
            | .error e =>
              { result := .error (.translationError e), backendInvoked := true }
          else
            { result := .error (.translationError
                ("Translation from " ++ fromCode ++ " to " ++ toCode ++
                  " is not supported (model not loaded)"))
              backendInvoked := false }

end Server

namespace Server

/-- C9: `Translator::load_model` byte-slices `language_pair` at `[0..2]`
and `[2..4]` with no length or boundary check, so any pair shorter than 4
bytes (and any pair whose UTF-8 char boundaries miss offsets 2 or 4) makes
the call panic instead of returning a typed error; `load_models_manually`
invokes it before its own `len() >= 4` validation, so the outcome is a
panic, never the `ConfigError`. -/
theorem c9_load_model_slicing_panics (pair : List UInt8)
    (h : pair.length < 4) :
    loadModelsManuallyStep pair = .panicked ∧
    loadModelsManuallyStep pair ≠ .configError ∧
    loadModelsManuallyStep [0xE6, 0x97, 0xA5, 0xE6, 0x9C, 0xAC] = .panicked := by
  have hb : isCharBoundary pair 4 = false := by
    unfold isCharBoundary
    rw [if_neg (by omega), if_neg (by omega), if_pos h]
  have hslice : byteSlice pair 2 4 = none := by
    unfold byteSlice
    simp [hb]
  have hstep : loadModelsManuallyStep pair = .panicked := by
    unfold loadModelsManuallyStep loadModelSlices
    cases hc : byteSlice pair 0 2 <;> simp [hc, hslice, Option.bind]
  exact ⟨hstep, by rw [hstep]; intro hcontra; exact StepOutcome.noConfusion hcontra,
    by decide⟩

/-- Witness for C9 at the 2-byte directory name "ab". -/
theorem c9_load_model_slicing_panics_witness :
    [(0x61 : UInt8), 0x62].length < 4 ∧
    loadModelsManuallyStep [0x61, 0x62] = .panicked :=
  ⟨by decide, (c9_load_model_slicing_panics [0x61, 0x62] (by decide)).1⟩

/-- C5: for every registered-model table not containing the pair key and
every input text, the script-side `engine.translate` fails with the error
naming the pair (`"Model not found for " ++ from ++ "-" ++ to`) and never
returns translated text. -/
theorem c5_translate_unregistered_pair_fails
    (models : List String) (service : String → String → String → String)
    (text fromLang toLang : String)
    (h : (fromLang ++ "-" ++ toLang) ∉ models) :
    adapterTranslate models service text fromLang toLang =
      .error ("Model not found for " ++ (fromLang ++ "-" ++ toLang)) ∧
    ∀ s, adapterTranslate models service text fromLang toLang ≠ .ok s := by
  unfold adapterTranslate
  simp [h]

/-- Witness for C5: an empty model table and the pair (en, zh). -/
theorem c5_translate_unregistered_pair_fails_witness :
    ("en" ++ "-" ++ "zh") ∉ ([] : List String) ∧
    adapterTranslate [] (fun _ _ _ => "") "Hello" "en" "zh" =
      .error ("Model not found for " ++ ("en" ++ "-" ++ "zh")) :=
  ⟨by simp,
   (c5_translate_unregistered_pair_fails [] (fun _ _ _ => "") "Hello" "en" "zh"
      (by simp)).1⟩

/-- C3 counterexample: a directory holding only the weights file.  The
load fails, but the error carries the FOUND role (`model`), and none of
the three missing roles (`lex`, `srcvocab`, `trgvocab`) is named in it —
refuting "MissingArtifact error naming the missing (unresolved) role(s)". -/
theorem c3_error_names_found_not_missing_counterexample :
    (wasmLoadModel { models := [] } "en" "zh" "models/enzh"
        [("model.enzh.bin", 0)]).outcome =
      .error { dir := "models/enzh", found := [Role.model] } ∧
    Role.lex ∉ [Role.model] ∧ Role.srcvocab ∉ [Role.model] ∧
    Role.trgvocab ∉ [Role.model] := by
  refine ⟨rfl, by decide, by decide, by decide⟩

/-- C3 amended: with fewer than four recognized artifact roles,
`WasmEngine::load_model` fails with an error naming the directory and the
roles that WERE found (the missing ones are only inferable by complement),
leaves the model registry unchanged, and never invokes the script-side
registration. -/
theorem c3_missing_artifacts_fail_without_registration
    (st : WasmEngineState) (fromCode toCode dir : String)
    (entries : List (String × Nat))
    (h : (classifyFiles entries).length < 4) :
    (wasmLoadModel st fromCode toCode dir entries).outcome =
      .error { dir := dir, found := (classifyFiles entries).map Prod.fst } ∧
    (wasmLoadModel st fromCode toCode dir entries).state = st ∧
    (wasmLoadModel st fromCode toCode dir entries).registrationInvoked = false := by
  unfold wasmLoadModel
  simp [h]

/-- Witness for C3 at a directory containing only the weights file. -/
theorem c3_missing_artifacts_fail_without_registration_witness :
    (classifyFiles [("model.enzh.bin", (0 : Nat))]).length < 4 ∧
    (wasmLoadModel { models := [] } "en" "zh" "models/enzh"
        [("model.enzh.bin", 0)]).state = { models := [] } :=
  ⟨by decide,
   (c3_missing_artifacts_fail_without_registration { models := [] } "en" "zh"
      "models/enzh" [("model.enzh.bin", 0)] (by decide)).2.1⟩

/-- A four-artifact model directory (all four roles recognized). -/
def sampleEntries : List (String × Nat) :=
  [("model.enzh.intgemm.bin", 0), ("model.s2t.enzh.bin", 1),
   ("srcvocab.enzh.spm", 2), ("trgvocab.enzh.spm", 3)]

/-- C4 counterexample: after a successful first `WasmEngine::load_model`
of the pair (en, zh), a second identical call still reads all four
artifact files again and re-invokes script-side registration — refuting
"a second identical load call succeeds as a no-op, without registering the
model a second time and without re-reading the artifact files". -/
theorem c4_wasm_second_load_rereads_counterexample :
    (wasmLoadModel { models := [] } "en" "zh" "models/enzh"
        sampleEntries).state.models = ["en-zh"] ∧
    (wasmLoadModel
        (wasmLoadModel { models := [] } "en" "zh" "models/enzh" sampleEntries).state
        "en" "zh" "models/enzh" sampleEntries).filesRead = 4 ∧
    (wasmLoadModel
        (wasmLoadModel { models := [] } "en" "zh" "models/enzh" sampleEntries).state
        "en" "zh" "models/enzh" sampleEntries).registrationInvoked = true := by
  refine ⟨by decide, by decide, by decide⟩

/-- C4 amended: idempotence holds only for the `Translator` loader — on a
cache hit `Translator::load_model` is a no-op success sending no request —
while `WasmEngine::load_model` re-reads every artifact file on every call
(it has no already-loaded check). -/
theorem c4_translator_idempotent_wasm_rereads
    (st : TranslatorState) (respond : HttpRequest → HttpResponse)
    (languagePair : String) (pr : List UInt8 × List UInt8)
    (hs : loadModelSlices (strBytes languagePair) = some pr)
    (hm : st.loadedModels.contains languagePair = true)
    (wst : WasmEngineState) (fromCode toCode dir : String)
    (entries : List (String × Nat)) :
    translatorLoadModel st respond languagePair =
      some { state := st, requestSent := false, succeeded := true } ∧
    (wasmLoadModel wst fromCode toCode dir entries).filesRead =
      entries.length := by
  constructor
  · unfold translatorLoadModel
    rw [hs, hm]
    simp
  · unfold wasmLoadModel
    by_cases h : (classifyFiles entries).length < 4 <;> simp [h]

/-- Witness for C4 at the already-cached pair "enzh". -/
theorem c4_translator_idempotent_wasm_rereads_witness :
    loadModelSlices (strBytes "enzh") =
      some ([0x65, 0x6E], [0x7A, 0x68]) ∧
    (TranslatorState.mk "http://127.0.0.1:3001" ["enzh"] 0).loadedModels.contains
      "enzh" = true ∧
    translatorLoadModel (TranslatorState.mk "http://127.0.0.1:3001" ["enzh"] 0)
      (fun _ => .success none) "enzh" =
      some { state := TranslatorState.mk "http://127.0.0.1:3001" ["enzh"] 0
             requestSent := false, succeeded := true } :=
  ⟨by decide, by decide,
   (c4_translator_idempotent_wasm_rereads
      (TranslatorState.mk "http://127.0.0.1:3001" ["enzh"] 0)
      (fun _ => .success none) "enzh" ([0x65, 0x6E], [0x7A, 0x68])
      (by decide) (by decide) { models := [] } "en" "zh" "d" []).1⟩

/-- A worker that answers every request successfully. -/
def alwaysOk : HttpRequest → HttpResponse := fun _ => .success (some "ok")

/-- C6 counterexample: on a translator constructed for a 2-worker pool,
two consecutive `translate` calls issue their requests to the very same
endpoint (so the two pool members are NOT each selected exactly once) and
the `next_worker` counter is still 0 after both calls (it is never
incremented) — refuting pure round robin via an atomically incremented
counter. -/
theorem c6_round_robin_counterexample :
    (translatorTranslate (translatorNew 2 3001) alwaysOk "en" "zh" "Hello").request =
      (translatorTranslate
        (translatorTranslate (translatorNew 2 3001) alwaysOk "en" "zh" "Hello").state
        alwaysOk "fr" "de" "Bonjour").request ∧
    (translatorTranslate
        (translatorTranslate (translatorNew 2 3001) alwaysOk "en" "zh" "Hello").state
        alwaysOk "fr" "de" "Bonjour").state.nextWorker = 0 := by
  exact ⟨rfl, rfl⟩

/-- C6 amended: there is no instance selection at all — every `translate`
call posts to the single fixed endpoint `worker_url ++ "/translate"`,
leaves the whole translator state (including `next_worker`) unchanged, and
the issued request's target is independent of call content. -/
theorem c6_dispatch_single_fixed_endpoint
    (st : TranslatorState) (respond : HttpRequest → HttpResponse)
    (f1 t1 x1 f2 t2 x2 : String) :
    (translatorTranslate st respond f1 t1 x1).state = st ∧
    (translatorTranslate st respond f1 t1 x1).request.url =
      st.workerUrl ++ "/translate" ∧
    (translatorTranslate st respond f1 t1 x1).request =
      (translatorTranslate st respond f2 t2 x2).request :=
  ⟨rfl, rfl, rfl⟩

/-- C7 counterexample: a translator constructed with a worker count of 0
(the empty pool) still dispatches its HTTP call and can even return a
successful translation — so `translate` does not fail at all on an empty
pool, let alone with a `NoWorkers` error (no such variant exists in
`AppError`). -/
theorem c7_empty_pool_no_noworkers_counterexample :
    (translatorTranslate (translatorNew 0 3001) alwaysOk "en" "zh" "Hello").result =
      .ok "ok" := rfl

/-- C7 amended: the configured worker count is ignored entirely — for
every count (zero included) `translate` issues one request to the fixed
worker endpoint, and a worker-side failure surfaces as
`AppError.translationError`, the only failure shape this path produces. -/
theorem c7_translate_ignores_pool_size
    (n port : Nat) (respond : HttpRequest → HttpResponse)
    (fromCode toCode text : String) :
    (translatorTranslate (translatorNew n port) respond fromCode toCode text).request.url =
      "http://127.0.0.1:" ++ toString port ++ "/translate" ∧
    (∀ e,
      respond { url := "http://127.0.0.1:" ++ toString port ++ "/translate" } =
        .failure e →
      (translatorTranslate (translatorNew n port) respond fromCode toCode text).result =
        .error (.translationError ("Translation failed: " ++ e))) := by
  constructor
  · rfl
  · intro e he
    unfold translatorTranslate translatorNew
    simp only
    rw [he]

/-! #### Properties of the import-stubbing loop and the link check -/

theorem stubLoop_all_func (imports : List WImport) :
    ∀ (acc : List ((String × String) × WFuncType)),
    (∀ imp ∈ imports, ∃ t, imp.ty = .func t) →
    (imports.map importKey).Nodup →
    (∀ imp ∈ imports, importKey imp ∉ acc.map Prod.fst) →
    stubLoop imports acc =
      some (acc ++ imports.map (fun i => (importKey i, stubFuncType))) := by
  induction imports with
  | nil => intro acc _ _ _; simp [stubLoop]
  | cons imp rest ih =>
    intro acc hf hd hdisj
    obtain ⟨t, ht⟩ := hf imp (List.mem_cons_self ..)
    have hnotin : importKey imp ∉ acc.map Prod.fst :=
      hdisj imp (List.mem_cons_self ..)
    have hd1 : (importKey imp :: rest.map importKey).Nodup := by
      rw [List.map_cons] at hd; exact hd
    have hhead : importKey imp ∉ rest.map importKey := (List.nodup_cons.mp hd1).1
    have hd' : (rest.map importKey).Nodup := (List.nodup_cons.mp hd1).2
    simp only [stubLoop, ht]
    rw [if_neg hnotin]
    rw [ih (acc ++ [(importKey imp, stubFuncType)])
      (fun i hi => hf i (List.mem_cons_of_mem _ hi)) hd'
      (by
        intro i hi
        simp only [List.map_append, List.mem_append]
        push_neg
        refine ⟨hdisj i (List.mem_cons_of_mem _ hi), ?_⟩
        simp only [List.map_cons, List.map_nil, List.mem_singleton]
        intro hcontra
        exact hhead (hcontra ▸ List.mem_map_of_mem importKey hi))]
    simp

theorem lookupKey_all_stub (l : List ((String × String) × WFuncType))
    (k : String × String)
    (hall : ∀ p ∈ l, p.2 = stubFuncType) (hk : k ∈ l.map Prod.fst) :
    lookupKey l k = some stubFuncType := by
  induction l with
  | nil => simp at hk
  | cons p rest ih =>
    by_cases h : p.1 = k
    · have : p.2 = stubFuncType := hall p (List.mem_cons_self ..)
      simp only [lookupKey, if_pos h, this]
    · simp only [lookupKey, if_neg h]
      refine ih (fun q hq => hall q (List.mem_cons_of_mem _ hq)) ?_
      simp only [List.map_cons, List.mem_cons] at hk
      rcases hk with hk | hk
      · exact absurd hk.symm h
      · exact hk

theorem lookupKey_some_mem (l : List ((String × String) × WFuncType))
    (k : String × String) (v : WFuncType)
    (h : lookupKey l k = some v) : ∃ k', (k', v) ∈ l := by
  induction l with
  | nil => simp [lookupKey] at h
  | cons p rest ih =>
    by_cases hk : p.1 = k
    · simp only [lookupKey, if_pos hk] at h
      exact ⟨p.1, by rw [Option.some_inj] at h; rw [← h]; exact List.mem_cons_self ..⟩
    · simp only [lookupKey, if_neg hk] at h
      obtain ⟨k', hm⟩ := ih h
      exact ⟨k', List.mem_cons_of_mem _ hm⟩

theorem linkCheck_all_stub (linker : List ((String × String) × WFuncType))
    (imports : List WImport)
    (hall : ∀ p ∈ linker, p.2 = stubFuncType)
    (h : ∀ imp ∈ imports,
      imp.ty = .func stubFuncType ∧ importKey imp ∈ linker.map Prod.fst) :
    linkCheck linker imports = true := by
  induction imports with
  | nil => rfl
  | cons imp rest ih =>
    obtain ⟨ht, hk⟩ := h imp (List.mem_cons_self ..)
    simp only [linkCheck, ht, lookupKey_all_stub linker _ hall hk, if_pos rfl,
      Bool.true_and]
    exact ih (fun i hi => h i (List.mem_cons_of_mem _ hi))

def importCheck (linker : List ((String × String) × WFuncType))
    (imp : WImport) : Bool :=
  match imp.ty with
  | .func t =>
    match lookupKey linker (importKey imp) with
    | some ft => if ft = t then true else false
    | none => false
  | _ => false

theorem linkCheck_eq_all (linker : List ((String × String) × WFuncType))
    (imports : List WImport) :
    linkCheck linker imports = imports.all (importCheck linker) := by
  induction imports with
  | nil => rfl
  | cons imp rest ih =>
    simp only [linkCheck, List.all_cons, ← ih, importCheck]

theorem linkCheck_false_of_bad (linker : List ((String × String) × WFuncType))
    (imports : List WImport) (imp : WImport) (hmem : imp ∈ imports)
    (hbad : importCheck linker imp = false) :
    linkCheck linker imports = false := by
  rw [linkCheck_eq_all]
  by_contra hcontra
  rw [Bool.not_eq_false, List.all_eq_true] at hcontra
  have := hcontra imp hmem
  rw [hbad] at this
  exact Bool.false_ne_true this

theorem stubLoop_values (imports : List WImport) :
    ∀ (acc res : List ((String × String) × WFuncType)),
    stubLoop imports acc = some res →
    (∀ p ∈ acc, p.2 = stubFuncType) →
    ∀ p ∈ res, p.2 = stubFuncType := by
  induction imports with
  | nil =>
    intro acc res h hacc
    simp only [stubLoop, Option.some_inj] at h
    exact h ▸ hacc
  | cons imp rest ih =>
    intro acc res h hacc
    rcases hty : imp.ty with t | _ | _ | _ <;> simp only [stubLoop, hty] at h
    · by_cases hmem : importKey imp ∈ acc.map Prod.fst
      · rw [if_pos hmem] at h; exact absurd h (by simp)
      · rw [if_neg hmem] at h
        refine ih _ res h ?_
        intro p hp
        rcases List.mem_append.mp hp with hp | hp
        · exact hacc p hp
        · simp only [List.mem_singleton] at hp; rw [hp]
    all_goals exact ih _ res h hacc

theorem stubLoop_keys_mono (imports : List WImport) :
    ∀ (acc res : List ((String × String) × WFuncType)),
    stubLoop imports acc = some res →
    ∀ k ∈ acc.map Prod.fst, k ∈ res.map Prod.fst := by
  induction imports with
  | nil =>
    intro acc res h
    simp only [stubLoop, Option.some_inj] at h
    exact h ▸ fun k hk => hk
  | cons imp rest ih =>
    intro acc res h k hk
    rcases hty : imp.ty with t | _ | _ | _ <;> simp only [stubLoop, hty] at h
    · by_cases hmem : importKey imp ∈ acc.map Prod.fst
      · rw [if_pos hmem] at h; exact absurd h (by simp)
      · rw [if_neg hmem] at h
        refine ih _ res h k ?_
        simp only [List.map_append, List.mem_append]
        exact Or.inl hk
    all_goals exact ih _ res h k hk

theorem stubLoop_func_key_mem (imports : List WImport) :
    ∀ (acc res : List ((String × String) × WFuncType)),
    stubLoop imports acc = some res →
    ∀ imp ∈ imports, ∀ t, imp.ty = .func t →
      importKey imp ∈ res.map Prod.fst := by
  induction imports with
  | nil => intro acc res h imp hmem; simp at hmem
  | cons imp0 rest ih =>
    intro acc res h imp hmem t ht
    rcases List.mem_cons.mp hmem with rfl | hmem'
    · rw [stubLoop] at h
      rw [ht] at h
      simp only at h
      by_cases hmem0 : importKey imp ∈ acc.map Prod.fst
      · rw [if_pos hmem0] at h; exact absurd h (by simp)
      · rw [if_neg hmem0] at h
        refine stubLoop_keys_mono rest _ res h _ ?_
        simp only [List.map_append, List.mem_append]
        exact Or.inr (by simp)
    · rcases hty : imp0.ty with t0 | _ | _ | _ <;> simp only [stubLoop, hty] at h
      · by_cases hmem0 : importKey imp0 ∈ acc.map Prod.fst
        · rw [if_pos hmem0] at h; exact absurd h (by simp)
        · rw [if_neg hmem0] at h
          exact ih _ res h imp hmem' t ht
      all_goals exact ih _ res h imp hmem' t ht

/-- C1 counterexample: `wasiModule` is the shape of a perfectly valid
module (one WASI-style function import with a non-empty signature — the
actual bergamot translator module declares many such imports).  The
polyfill binds only nullary stubs, so wasmtime's link check rejects
that import and `instantiate` fails with the instantiation error — refuting
"for every valid WebAssembly byte sequence, the polyfilled instantiate
call succeeds". -/
theorem c1_valid_module_fails_counterexample :
    instantiatePolyfill (some wasiModule) = .instantiationError ∧
    instOk (instantiatePolyfill (some wasiModule)) = false := by
  exact ⟨by decide, by decide⟩

/-- C1 amended: instantiate succeeds — with an entry (set to the
placeholder 0) named after every declared export — only for modules all
of whose imports are function imports of the empty signature with
pairwise-distinct names; a decode failure (malformed bytes) is reported
as the script-level compile error, a script exception distinct from a
host abort. -/
theorem c1_trivial_imports_succeed_malformed_compile_error
    (m : WModule)
    (hf : ∀ imp ∈ m.imports, imp.ty = .func stubFuncType)
    (hd : (m.imports.map importKey).Nodup) :
    instantiatePolyfill (some m) = .ok (m.exports.map (fun n => (n, 0))) ∧
    (∀ n ∈ m.exports, (n, (0 : Nat)) ∈ m.exports.map (fun n => (n, 0))) ∧
    instantiatePolyfill none = .compileError ∧
    instantiatePolyfill none ≠ .hostPanic := by
  refine ⟨?_, fun n hn => List.mem_map_of_mem _ hn, rfl, by decide⟩
  have hstub := stubLoop_all_func m.imports []
    (fun imp hm => ⟨stubFuncType, hf imp hm⟩) hd (by simp)
  have hvals : ∀ p ∈ m.imports.map (fun i => (importKey i, stubFuncType)),
      p.2 = stubFuncType := by
    intro p hp
    obtain ⟨i, _, rfl⟩ := List.mem_map.mp hp
    rfl
  have hkeys : ∀ imp ∈ m.imports, imp.ty = .func stubFuncType ∧
      importKey imp ∈
        (m.imports.map (fun i => (importKey i, stubFuncType))).map Prod.fst := by
    intro imp hm
    refine ⟨hf imp hm, ?_⟩
    rw [List.map_map]
    exact List.mem_map_of_mem _ hm
  have hlink := linkCheck_all_stub _ m.imports hvals hkeys
  simp only [instantiatePolyfill, hstub, List.nil_append, hlink, if_true]

/-- A module whose single import the broken stub loop happens to satisfy:
a function import that itself has the empty signature. -/
def trivialModule : WModule :=
  { imports := [{ moduleName := "env", name := "noop", ty := .func stubFuncType }]
    exports := ["memory", "main"] }

/-- Witness for C1 at `trivialModule`. -/
theorem c1_trivial_imports_succeed_malformed_compile_error_witness :
    (∀ imp ∈ trivialModule.imports, imp.ty = .func stubFuncType) ∧
    instantiatePolyfill (some trivialModule) =
      .ok (trivialModule.exports.map (fun n => (n, 0))) :=
  ⟨by decide,
   (c1_trivial_imports_succeed_malformed_compile_error trivialModule
      (by decide) (by decide)).1⟩

/-- C2 counterexample: for `wasiModule`, whose one function import
declares the signature (i32, i32, i32, i32) -> i32, the stubbing loop
binds a stub of the EMPTY signature — not a stub matching the declared
signature — and instantiation then fails over that import, refuting both
halves of the claim. -/
theorem c2_stub_signature_mismatch_counterexample :
    stubLoop wasiModule.imports [] =
      some [(("wasi_snapshot_preview1", "fd_write"), stubFuncType)] ∧
    stubFuncType ≠
      { params := [.i32, .i32, .i32, .i32], results := [.i32] } ∧
    instantiatePolyfill (some wasiModule) ≠ .ok [("memory", 0)] := by
  exact ⟨by decide, by decide, by decide⟩

/-- C2 amended: every binding the import-stubbing loop creates is the
no-op stub of the EMPTY signature, regardless of the import's declared
signature; every function import does get such a binding, but any
function import whose declared signature is non-empty — and any
memory import, which gets no binding at all — makes instantiation fail. -/
theorem c2_stubs_have_empty_signature
    (m : WModule) (linker : List ((String × String) × WFuncType))
    (hs : stubLoop m.imports [] = some linker) :
    (∀ p ∈ linker, p.2 = stubFuncType) ∧
    (∀ imp ∈ m.imports, ∀ t, imp.ty = .func t →
      importKey imp ∈ linker.map Prod.fst) ∧
    (∀ imp ∈ m.imports, ∀ t, imp.ty = .func t → t ≠ stubFuncType →
      instantiatePolyfill (some m) = .instantiationError) ∧
    (∀ imp ∈ m.imports, imp.ty = .memory →
      instantiatePolyfill (some m) = .instantiationError) := by
  have hvals : ∀ p ∈ linker, p.2 = stubFuncType :=
    stubLoop_values m.imports [] linker hs (by simp)
  refine ⟨hvals, fun imp hm t ht => stubLoop_func_key_mem m.imports [] linker hs imp hm t ht,
    ?_, ?_⟩
  · intro imp hm t ht hne
    have hbad : importCheck linker imp = false := by
      unfold importCheck
      rw [ht]
      cases hl : lookupKey linker (importKey imp) with
      | none => rfl
      | some ft =>
        obtain ⟨k', hmem⟩ := lookupKey_some_mem linker _ ft hl
        have : ft = stubFuncType := hvals (k', ft) hmem
        simp only [this]
        rw [if_neg (fun hcontra => hne hcontra.symm)]
    simp only [instantiatePolyfill, hs,
      linkCheck_false_of_bad linker m.imports imp hm hbad, if_false,
      Bool.false_eq_true, reduceIte]
  · intro imp hm ht
    have hbad : importCheck linker imp = false := by
      unfold importCheck
      rw [ht]
    simp only [instantiatePolyfill, hs,
      linkCheck_false_of_bad linker m.imports imp hm hbad, if_false,
      Bool.false_eq_true, reduceIte]

/-- Witness for C2 at `wasiModule` and its computed linker. -/
theorem c2_stubs_have_empty_signature_witness :
    stubLoop wasiModule.imports [] =
      some [(("wasi_snapshot_preview1", "fd_write"), stubFuncType)] ∧
    instantiatePolyfill (some wasiModule) = .instantiationError :=
  ⟨by decide,
   (c2_stubs_have_empty_signature wasiModule
      [(("wasi_snapshot_preview1", "fd_write"), stubFuncType)] (by decide)).2.2.1
     { moduleName := "wasi_snapshot_preview1", name := "fd_write"
       ty := .func { params := [.i32, .i32, .i32, .i32], results := [.i32] } }
     (by decide) { params := [.i32, .i32, .i32, .i32], results := [.i32] }
     rfl (by decide)⟩

/-- C8 counterexample: "en-US" is not a valid ISO 639-1 code (639-1 codes
are bare two-letter codes; `from_639_1` rejects it), yet
`parse_language_code` accepts it by splitting at the dash and parsing only
the leading segment — refuting "for every input code that is not valid ISO
639-1, the language-parsing operation fails". -/
theorem c8_region_suffix_accepted_counterexample :
    fromIso6391 "en-US" = none ∧
    parseLanguageCode "en-US" = .ok { code1 := some "en", code3 := "eng" } :=
  ⟨rfl, rfl⟩

/-- C8 amended: `parse_language_code` fails exactly when the input's
leading dash-separated segment is not a valid ISO 639-1 code; an input
with a valid 639-1 primary subtag and a region suffix (such as "en-US")
is accepted by stripping the suffix. -/
theorem c8_parse_fails_iff_leading_segment_invalid (code : String) :
    (∃ e, parseLanguageCode code = .error e) ↔
      fromIso6391 (firstSegment code) = none := by
  unfold parseLanguageCode
  cases h : fromIso6391 (firstSegment code) <;> simp [h]

/-- C10: whenever the resolved source and target languages map to the
same ISO code, `perform_translation` returns the input text unchanged
with those codes, never reaches the worker call, and imposes no condition
on the loaded-model list. -/
theorem c10_equal_codes_passthrough
    (detect : String → Option Language)
    (backend : String → String → String → Except String String)
    (models : List (Language × Language))
    (text : String) (fromLang : Option String) (toLang : String)
    (sourceLang targetLang : Language) (c : String)
    (hres : resolveSource detect models text fromLang = .ok sourceLang)
    (ht : parseLanguageCode toLang = .ok targetLang)
    (hsc : getIsoCode sourceLang = .ok c)
    (htc : getIsoCode targetLang = .ok c) :
    (performTranslation detect backend models text fromLang toLang).result =
      .ok (text, c, c) ∧
    (performTranslation detect backend models text fromLang toLang).backendInvoked
      = false := by
  simp [performTranslation, hres, ht, hsc, htc]

/-- Witness for C10: explicit source "en", target "en", an EMPTY model
list, and a backend that would fail if consulted: the text passes through
unchanged. -/
theorem c10_equal_codes_passthrough_witness :
    (performTranslation (fun _ => none) (fun _ _ _ => .error "unused") []
        "Hello" (some "en") "en").result = .ok ("Hello", "en", "en") ∧
    (performTranslation (fun _ => none) (fun _ _ _ => .error "unused") []
        "Hello" (some "en") "en").backendInvoked = false :=
  c10_equal_codes_passthrough (fun _ => none) (fun _ _ _ => .error "unused") []
    "Hello" (some "en") "en" { code1 := some "en", code3 := "eng" }
    { code1 := some "en", code3 := "eng" } "en" rfl rfl rfl rfl

/-- Witness for C7 with a worker count of 0 and a failing worker. -/
theorem c7_translate_ignores_pool_size_witness :
    (fun _ => HttpResponse.failure "boom" : HttpRequest → HttpResponse)
      { url := "http://127.0.0.1:" ++ toString 3001 ++ "/translate" } =
      .failure "boom" ∧
    (translatorTranslate (translatorNew 0 3001) (fun _ => .failure "boom")
        "en" "zh" "Hello").result =
      .error (.translationError ("Translation failed: " ++ "boom")) :=
  ⟨rfl,
   (c7_translate_ignores_pool_size 0 3001 (fun _ => .failure "boom")
      "en" "zh" "Hello").2 "boom" rfl⟩

end Server
